import Mathlib

/-!
Shallow embedding of the Vamazon backend's checkout/order core
(`backend/app/routes/orders.py`, `backend/app/routes/cart.py`,
`backend/app/models/models.py`, `backend/app/schemas/schemas.py`).

Database tables are lists of records; `Numeric(10,2)` currency columns are
modelled as exact integer cents (the DB stores exactly two fractional digits,
so integer-cent arithmetic is the exact semantics of the stored values);
`Integer` columns are `Int`.  Each route handler becomes a pure function
from a `State` to `Except ApiError (State × response)`: returning `.error`
models the transaction being rolled back (nothing persisted), returning
`.ok` models the commit.  The nondeterministic `generate_order_number()`
value is passed in as an explicit argument, exactly once per request, the
way the handler calls it exactly once.
-/

namespace Vamazon

/-- Row of the `products` table (`models.Product`): `price` is
`Numeric(10,2)` in cents, `stock` is an `Integer` column. -/
structure Product where
  id : Nat
  name : String
  price : Int
  stock : Int
  image_url : String
deriving Repr, DecidableEq

/-- Row of the `carts` table (`models.Cart`). -/
structure Cart where
  id : Nat
  session_id : String
deriving Repr, DecidableEq

/-- Row of the `cart_items` table (`models.CartItem`). -/
structure CartItem where
  id : Nat
  cart_id : Nat
  product_id : Nat
  quantity : Int
deriving Repr, DecidableEq

/-- Shipping/customer fields shared by `OrderCreate` and `BuyNowCreate`
(`schemas.ShippingAddress`). -/
structure ShippingInfo where
  customer_name : String
  email : String
  phone : String
  address_line1 : String
  address_line2 : String
  city : String
  state : String
  pincode : String
deriving Repr, DecidableEq

/-- Row of the `orders` table (`models.Order`): `total_amount` is
`Numeric(12,2)` in cents, `order_number` carries a UNIQUE constraint. -/
structure Order where
  id : Nat
  order_number : String
  user_id : Nat
  customer_name : String
  email : String
  phone : String
  address_line1 : String
  address_line2 : String
  city : String
  state : String
  pincode : String
  total_amount : Int
  status : String
deriving Repr, DecidableEq

/-- Row of the `order_items` table (`models.OrderItem`):
`price_at_purchase` is the frozen `Numeric(10,2)` price in cents. -/
structure OrderItem where
  id : Nat
  order_id : Nat
  product_id : Nat
  quantity : Int
  price_at_purchase : Int
deriving Repr, DecidableEq

/-- The database: one list per table, plus autoincrement counters for the
primary keys the handlers create. -/
structure State where
  products : List Product
  carts : List Cart
  cart_items : List CartItem
  orders : List Order
  order_items : List OrderItem
  next_order_id : Nat
  next_order_item_id : Nat
deriving Repr, DecidableEq

/-- Error outcomes of a request: a pydantic 422 rejection before the handler
runs, an `HTTPException(status, detail)` raised by the handler, or the UNIQUE
constraint on `orders.order_number` firing at `db.commit()`. -/
inductive ApiError where
  | validationError
  | httpError (status : Nat) (detail : String)
  | integrityError
deriving Repr, DecidableEq

/-- `db.query(Product).filter(Product.id == pid).first()`. -/
def findProduct (st : State) (pid : Nat) : Option Product :=
  st.products.find? (fun p => p.id == pid)

/-- `db.query(Cart).filter(Cart.session_id == sid).first()`. -/
def findCartBySession (st : State) (sid : String) : Option Cart :=
  st.carts.find? (fun c => c.session_id == sid)

/-- `cart.items`: the `CartItem` rows whose `cart_id` is this cart's id. -/
def itemsOfCart (st : State) (cid : Nat) : List CartItem :=
  st.cart_items.filter (fun i => i.cart_id == cid)

/-- `order.items`: the `OrderItem` rows whose `order_id` is this order's id. -/
def itemsOfOrder (st : State) (oid : Nat) : List OrderItem :=
  st.order_items.filter (fun i => i.order_id == oid)

/-- The `joinedload(CartItem.product)` resolution: pair each cart line with
its product row; `none` when some `product_id` dangles (the handler would
crash dereferencing `item.product.price`, which the FK constraint prevents
in a live database). -/
def resolveCartLines (st : State) : List CartItem → Option (List (CartItem × Product))
  | [] => some []
  | i :: rest =>
    match findProduct st i.product_id, resolveCartLines st rest with
    | some p, some tail => some ((i, p) :: tail)
    | _, _ => none

/-- The order-items loop of `create_order`: one `OrderItem` per cart line,
with `price_at_purchase = float(cart_item.product.price)` and ids handed out
by the autoincrement counter. -/
def mkOrderItems (oid : Nat) (nextId : Nat) : List (CartItem × Product) → List OrderItem
  | [] => []
  | (i, p) :: rest =>
    { id := nextId, order_id := oid, product_id := i.product_id,
      quantity := i.quantity, price_at_purchase := p.price }
      :: mkOrderItems oid (nextId + 1) rest

/-- The response body: the persisted order plus its loaded items
(`joinedload(Order.items)` on the re-query after commit). -/
structure OrderResponse where
  order : Order
  items : List OrderItem
deriving Repr, DecidableEq

/-- The `Order(...)` record built by `create_order` (lines 64–78):
`total_amount = sum(float(item.product.price) * item.quantity for item in
cart.items)`, status `"confirmed"`, id from the autoincrement counter. -/
def cartOrder (st : State) (orderNumber : String) (user_id : Nat)
    (ship : ShippingInfo) (lines : List (CartItem × Product)) : Order :=
  { id := st.next_order_id, order_number := orderNumber,
    user_id := user_id, customer_name := ship.customer_name,
    email := ship.email, phone := ship.phone,
    address_line1 := ship.address_line1,
    address_line2 := ship.address_line2, city := ship.city,
    state := ship.state, pincode := ship.pincode,
    total_amount := (lines.map (fun l => l.2.price * l.1.quantity)).sum,
    status := "confirmed" }

/-- The committed effect of a successful `create_order` transaction
(lines 79–101): insert the order, insert one `OrderItem` per cart line,
delete every `CartItem` of the converted cart, advance the counters, and
return the persisted order with its loaded items. -/
def cartCheckoutCommit (st : State) (orderNumber : String) (cart : Cart)
    (user_id : Nat) (ship : ShippingInfo)
    (lines : List (CartItem × Product)) : State × OrderResponse :=
  ({ st with
      orders := st.orders ++ [cartOrder st orderNumber user_id ship lines],
      order_items := st.order_items
        ++ mkOrderItems st.next_order_id st.next_order_item_id lines,
      cart_items := st.cart_items.filter (fun i => !(i.cart_id == cart.id)),
      next_order_id := st.next_order_id + 1,
      next_order_item_id := st.next_order_item_id
        + (mkOrderItems st.next_order_id st.next_order_item_id lines).length },
   { order := cartOrder st orderNumber user_id ship lines,
     items := mkOrderItems st.next_order_id st.next_order_item_id lines })

/-- `POST /orders/` — `create_order` in `routes/orders.py`, lines 32–131.
`orderNumber` is the single value `generate_order_number()` returned for this
request (the handler calls it exactly once and never retries); `emailOk` is
the outcome of `send_order_confirmation_email`, whose exception the handler
catches and only prints, so it does not occur in the result.  An `.error`
result models the rolled-back transaction: nothing is persisted. -/
def create_order (st : State) (orderNumber : String) (session_id : String)
    (user_id : Nat) (ship : ShippingInfo) (emailOk : Bool) :
    Except ApiError (State × OrderResponse) :=
  match findCartBySession st session_id with
  | none => .error (.httpError 400 "Cart is empty")
  | some cart =>
    if (itemsOfCart st cart.id).isEmpty then .error (.httpError 400 "Cart is empty")
    else
      match resolveCartLines st (itemsOfCart st cart.id) with
      | none => .error (.httpError 500 "Internal Server Error")
      | some lines =>
        if st.orders.any (fun o => o.order_number == orderNumber) then
          .error .integrityError
        else
          .ok (cartCheckoutCommit st orderNumber cart user_id ship lines)

/-- `GET /orders/{order_number}` — `get_order` in `routes/orders.py`,
lines 134–144: look the order up by its number, 404 when absent, return it
with its loaded items. -/
def get_order (st : State) (order_number : String) : Except ApiError OrderResponse :=
  match st.orders.find? (fun o => o.order_number == order_number) with
  | none => .error (.httpError 404 "Order not found")
  | some o => .ok { order := o, items := itemsOfOrder st o.id }

/-- Request body of `POST /orders/buy-now` (`BuyNowCreate` in
`routes/orders.py`, lines 147–158): `quantity : int = 1` carries no bound,
`customer_name` has `min_length=2`, the rest are plain strings. -/
structure BuyNowCreate where
  product_id : Nat
  quantity : Int
  customer_name : String
  email : String
  phone : String
  address_line1 : String
  address_line2 : String
  city : String
  state : String
  pincode : String
deriving Repr, DecidableEq

/-- Pydantic validation of `BuyNowCreate`: the only value constraint among
its fields is `min_length=2` on `customer_name`; `quantity` is accepted for
every integer. -/
def buyNowCreateValid (b : BuyNowCreate) : Bool :=
  2 ≤ b.customer_name.length

/-- The `Order(...)` record built by `create_buy_now_order`
(lines 182–199): `total_amount = float(product.price) * quantity`. -/
def buyNowOrder (st : State) (orderNumber : String) (b : BuyNowCreate)
    (user_id : Nat) (product : Product) : Order :=
  { id := st.next_order_id, order_number := orderNumber,
    user_id := user_id, customer_name := b.customer_name,
    email := b.email, phone := b.phone,
    address_line1 := b.address_line1,
    address_line2 := b.address_line2, city := b.city,
    state := b.state, pincode := b.pincode,
    total_amount := product.price * b.quantity,
    status := "confirmed" }

/-- The single `OrderItem(...)` of a buy-now order (lines 203–210), with
`price_at_purchase = float(product.price)`. -/
def buyNowItem (st : State) (b : BuyNowCreate) (product : Product) : OrderItem :=
  { id := st.next_order_item_id, order_id := st.next_order_id,
    product_id := product.id, quantity := b.quantity,
    price_at_purchase := product.price }

/-- The committed effect of a successful buy-now transaction
(lines 200–221): insert the order and its one item, apply
`product.stock -= quantity` to the product row, advance the counters. -/
def buyNowCommit (st : State) (orderNumber : String) (b : BuyNowCreate)
    (user_id : Nat) (product : Product) : State × OrderResponse :=
  ({ st with
      products := st.products.map (fun p =>
        if p.id == product.id then { p with stock := p.stock - b.quantity } else p),
      orders := st.orders ++ [buyNowOrder st orderNumber b user_id product],
      order_items := st.order_items ++ [buyNowItem st b product],
      next_order_id := st.next_order_id + 1,
      next_order_item_id := st.next_order_item_id + 1 },
   { order := buyNowOrder st orderNumber b user_id product,
     items := [buyNowItem st b product] })

/-- `POST /orders/buy-now` — `create_buy_now_order` in `routes/orders.py`,
lines 161–250, behind the pydantic validation of `BuyNowCreate`: resolve
the product (404), reject `product.stock < quantity` (400), snapshot the
price into the total and the single order item, decrement `product.stock`
by `quantity`, commit all of it (the UNIQUE order-number constraint can
fire there).  The confirmation-email outcome `emailOk` is caught and only
printed, so it does not occur in the result. -/
def create_buy_now_order (st : State) (orderNumber : String)
    (b : BuyNowCreate) (user_id : Nat) (emailOk : Bool) :
    Except ApiError (State × OrderResponse) :=
  if ¬ buyNowCreateValid b then .error .validationError
  else
    match findProduct st b.product_id with
    | none => .error (.httpError 404 "Product not found")
    | some product =>
      if product.stock < b.quantity then .error (.httpError 400 "Insufficient stock")
      else
        if st.orders.any (fun o => o.order_number == orderNumber) then
          .error .integrityError
        else
          .ok (buyNowCommit st orderNumber b user_id product)

/-- Pydantic validation of `CartItemUpdate` (`schemas.py`, lines 169–171):
`quantity: int = Field(..., ge=1)` — a request with `quantity < 1` is
rejected with a 422 before the handler runs. -/
def cartItemUpdateValid (quantity : Int) : Bool :=
  1 ≤ quantity

/-- The body of `update_cart_item` in `routes/cart.py`, lines 102–136,
after pydantic validation: resolve the session's cart (404), resolve the
item by id within that cart (404), then delete the row when
`update.quantity <= 0`, otherwise overwrite its quantity. -/
def update_cart_item_handler (st : State) (session_id : String)
    (item_id : Nat) (quantity : Int) : Except ApiError State :=
  match findCartBySession st session_id with
  | none => .error (.httpError 404 "Cart not found")
  | some cart =>
    match st.cart_items.find? (fun i => i.id == item_id && i.cart_id == cart.id) with
    | none => .error (.httpError 404 "Cart item not found")
    | some _ =>
      if quantity ≤ 0 then
        .ok { st with cart_items := st.cart_items.filter (fun i => !(i.id == item_id)) }
      else
        .ok { st with cart_items := st.cart_items.map (fun i =>
          if i.id == item_id then { i with quantity := quantity } else i) }

/-- `PUT /cart/{session_id}/items/{item_id}` — the full entry point: the
`CartItemUpdate` validation gate followed by the handler. -/
def update_cart_item (st : State) (session_id : String)
    (item_id : Nat) (quantity : Int) : Except ApiError State :=
  if ¬ cartItemUpdateValid quantity then .error .validationError
  else update_cart_item_handler st session_id item_id quantity

/-- Models an external catalog price change: no route of this backend
mutates `Product.price` (prices are written by seeding/administration
outside the API), so a later price change is any direct update of the
product row, leaving every other table untouched. -/
def setProductPrice (st : State) (pid : Nat) (newPrice : Int) : State :=
  { st with products := st.products.map (fun p =>
      if p.id == pid then { p with price := newPrice } else p) }

/-- Bookkeeping invariant of the autoincrement primary keys that every
database run satisfies: each persisted order item references an order id
strictly below the `orders` counter. -/
def orderItemsBelowNext (st : State) : Bool :=
  st.order_items.all (fun i => i.order_id < st.next_order_id)

/-! Concrete fixtures used to exercise the embedded handlers. -/

/-- Shipping data of a concrete checkout request. -/
def shipA : ShippingInfo :=
  { customer_name := "Asha Rao", email := "asha@example.com",
    phone := "9999999999", address_line1 := "12 MG Road",
    address_line2 := "", city := "Pune", state := "MH", pincode := "411001" }

/-- Product with price 10.00 and only 1 unit in stock. -/
def productA : Product :=
  { id := 1, name := "Pen", price := 1000, stock := 1, image_url := "pen.png" }

/-- Product with price 5.00 and 3 units in stock. -/
def productB : Product :=
  { id := 2, name := "Book", price := 500, stock := 3, image_url := "book.png" }

/-- Session `s1` has a cart holding 5 of `productA` (more than its stock)
and 1 of `productB`. -/
def st0 : State :=
  { products := [productA, productB],
    carts := [{ id := 1, session_id := "s1" }],
    cart_items := [{ id := 1, cart_id := 1, product_id := 1, quantity := 5 },
                   { id := 2, cart_id := 1, product_id := 2, quantity := 1 }],
    orders := [], order_items := [],
    next_order_id := 1, next_order_item_id := 1 }

/-- A database with no carts at all. -/
def stEmpty : State :=
  { products := [productA], carts := [], cart_items := [],
    orders := [], order_items := [],
    next_order_id := 1, next_order_item_id := 1 }

/-- An order already persisted under number `ORD-20250101-DUP00001`. -/
def prevOrder : Order :=
  { id := 1, order_number := "ORD-20250101-DUP00001", user_id := 3,
    customer_name := "Ravi Iyer", email := "ravi@example.com",
    phone := "8888888888", address_line1 := "4 Park Street",
    address_line2 := "", city := "Mumbai", state := "MH",
    pincode := "400001", total_amount := 500, status := "confirmed" }

/-- Like `st0` but the ledger already holds `prevOrder`, so a checkout that
draws the same order number collides with it. -/
def stCol : State :=
  { products := [productA, productB],
    carts := [{ id := 1, session_id := "s1" }],
    cart_items := [{ id := 1, cart_id := 1, product_id := 1, quantity := 1 }],
    orders := [prevOrder], order_items := [],
    next_order_id := 2, next_order_item_id := 1 }

/-- Session `s1` has a cart whose only line is item id 1 (2 of `productA`). -/
def stD : State :=
  { products := [productA], carts := [{ id := 1, session_id := "s1" }],
    cart_items := [{ id := 1, cart_id := 1, product_id := 1, quantity := 2 }],
    orders := [], order_items := [],
    next_order_id := 1, next_order_item_id := 1 }

/-- Buy-now request for 5 of `productB` (stock 3). -/
def buyFive : BuyNowCreate :=
  { product_id := 2, quantity := 5, customer_name := "Asha Rao",
    email := "asha@example.com", phone := "9999999999",
    address_line1 := "12 MG Road", address_line2 := "", city := "Pune",
    state := "MH", pincode := "411001" }

/-- Buy-now request for 2 of `productB` (stock 3). -/
def buyTwo : BuyNowCreate :=
  { buyFive with quantity := 2 }

/-- Buy-now request for -3 of `productB`. -/
def buyNeg : BuyNowCreate :=
  { buyFive with quantity := -3 }

/-! Basic lemmas about the embedded operations. -/

theorem mkOrderItems_order_id (oid n : Nat) (lines : List (CartItem × Product)) :
    ∀ x ∈ mkOrderItems oid n lines, x.order_id = oid := by
  induction lines generalizing n with
  | nil => intro x hx; cases hx
  | cons l rest ih =>
    intro x hx
    rw [mkOrderItems] at hx
    rcases List.mem_cons.mp hx with h | h
    · subst h; rfl
    · exact ih (n + 1) x h

theorem mkOrderItems_sum (oid n : Nat) (lines : List (CartItem × Product)) :
    ((mkOrderItems oid n lines).map (fun x => x.quantity * x.price_at_purchase)).sum
      = (lines.map (fun l => l.2.price * l.1.quantity)).sum := by
  induction lines generalizing n with
  | nil => rfl
  | cons l rest ih => simp [mkOrderItems, ih, mul_comm]

theorem mkOrderItems_src (oid n : Nat) (lines : List (CartItem × Product)) :
    ∀ x ∈ mkOrderItems oid n lines, ∃ l ∈ lines,
      x.product_id = l.1.product_id ∧ x.quantity = l.1.quantity ∧
      x.price_at_purchase = l.2.price := by
  induction lines generalizing n with
  | nil => intro x hx; cases hx
  | cons l rest ih =>
    intro x hx
    rw [mkOrderItems] at hx
    rcases List.mem_cons.mp hx with h | h
    · exact ⟨l, List.mem_cons_self .., by subst h; exact ⟨rfl, rfl, rfl⟩⟩
    · obtain ⟨l', hl', hprops⟩ := ih (n + 1) x h
      exact ⟨l', List.mem_cons_of_mem _ hl', hprops⟩

theorem resolveCartLines_mem (st : State) (items : List CartItem)
    (lines : List (CartItem × Product))
    (h : resolveCartLines st items = some lines) :
    ∀ l ∈ lines, findProduct st l.1.product_id = some l.2 := by
  induction items generalizing lines with
  | nil =>
    rw [resolveCartLines] at h
    cases h
    intro l hl; cases hl
  | cons i rest ih =>
    rw [resolveCartLines] at h
    cases hp : findProduct st i.product_id <;> rw [hp] at h
    · cases h
    · cases hr : resolveCartLines st rest <;> rw [hr] at h
      · cases h
      · cases h
        intro l hl
        rcases List.mem_cons.mp hl with h' | h'
        · subst h'; exact hp
        · exact ih _ hr l h'

theorem find?_eq_none_of_any_eq_false {α : Type} (l : List α) (p : α → Bool)
    (h : l.any p = false) : l.find? p = none := by
  rw [List.find?_eq_none]
  intro x hx
  simp only [List.any_eq_false] at h
  simp [h x hx]

theorem filter_append_left_nil {α : Type} (old new : List α) (p : α → Bool)
    (hold : ∀ x ∈ old, p x = false) (hnew : ∀ x ∈ new, p x = true) :
    (old ++ new).filter p = new := by
  rw [List.filter_append, List.filter_eq_nil_iff.mpr ?_, List.filter_eq_self.mpr hnew,
    List.nil_append]
  intro a ha
  simp [hold a ha]

/-! Characterizations of the two checkout handlers: exactly when they
succeed and what the committed state is. -/

theorem create_order_ok_inv {st : State} {n sid : String} {uid : Nat}
    {ship : ShippingInfo} {e : Bool} {st' : State} {r : OrderResponse}
    (h : create_order st n sid uid ship e = .ok (st', r)) :
    ∃ cart lines,
      findCartBySession st sid = some cart ∧
      (itemsOfCart st cart.id).isEmpty = false ∧
      resolveCartLines st (itemsOfCart st cart.id) = some lines ∧
      (st.orders.any fun o => o.order_number == n) = false ∧
      (st', r) = cartCheckoutCommit st n cart uid ship lines := by
  unfold create_order at h
  split at h
  · exact Except.noConfusion h
  next cart hc =>
    split at h
    · exact Except.noConfusion h
    next hemp =>
      split at h
      · exact Except.noConfusion h
      next lines hres =>
        split at h
        · exact Except.noConfusion h
        next hcol =>
          refine ⟨cart, lines, hc, by simpa using hemp, hres, by simpa using hcol, ?_⟩
          cases h
          rfl

theorem create_order_spec (st : State) (n sid : String) (uid : Nat)
    (ship : ShippingInfo) (e : Bool) (cart : Cart)
    (lines : List (CartItem × Product))
    (hc : findCartBySession st sid = some cart)
    (hemp : (itemsOfCart st cart.id).isEmpty = false)
    (hres : resolveCartLines st (itemsOfCart st cart.id) = some lines)
    (hfresh : (st.orders.any fun o => o.order_number == n) = false) :
    create_order st n sid uid ship e
      = .ok (cartCheckoutCommit st n cart uid ship lines) := by
  unfold create_order
  rw [hc]
  simp [hemp, hres, hfresh]

theorem create_buy_now_order_ok_inv {st : State} {n : String}
    {b : BuyNowCreate} {uid : Nat} {e : Bool} {st' : State} {r : OrderResponse}
    (h : create_buy_now_order st n b uid e = .ok (st', r)) :
    buyNowCreateValid b = true ∧
    ∃ product,
      findProduct st b.product_id = some product ∧
      b.quantity ≤ product.stock ∧
      (st.orders.any fun o => o.order_number == n) = false ∧
      (st', r) = buyNowCommit st n b uid product := by
  unfold create_buy_now_order at h
  split at h
  · exact Except.noConfusion h
  next hv =>
    split at h
    · exact Except.noConfusion h
    next product hp =>
      split at h
      · exact Except.noConfusion h
      next hstock =>
        split at h
        · exact Except.noConfusion h
        next hcol =>
          refine ⟨by simpa using hv, product, hp, by simpa using hstock,
            by simpa using hcol, ?_⟩
          cases h
          rfl

theorem create_buy_now_order_spec (st : State) (n : String) (b : BuyNowCreate)
    (uid : Nat) (e : Bool) (product : Product)
    (hv : buyNowCreateValid b = true)
    (hp : findProduct st b.product_id = some product)
    (hstock : b.quantity ≤ product.stock)
    (hfresh : (st.orders.any fun o => o.order_number == n) = false) :
    create_buy_now_order st n b uid e = .ok (buyNowCommit st n b uid product) := by
  unfold create_buy_now_order
  rw [hp]
  simp [hv, hfresh, not_lt.mpr hstock]

theorem create_order_no_cart_spec (st : State) (n sid : String) (uid : Nat)
    (ship : ShippingInfo) (e : Bool)
    (hc : findCartBySession st sid = none) :
    create_order st n sid uid ship e = .error (.httpError 400 "Cart is empty") := by
  unfold create_order
  rw [hc]

theorem create_order_empty_cart_spec (st : State) (n sid : String) (uid : Nat)
    (ship : ShippingInfo) (e : Bool) (cart : Cart)
    (hc : findCartBySession st sid = some cart)
    (hemp : itemsOfCart st cart.id = []) :
    create_order st n sid uid ship e = .error (.httpError 400 "Cart is empty") := by
  unfold create_order
  rw [hc]
  simp [hemp]

theorem create_order_collision_spec (st : State) (n sid : String) (uid : Nat)
    (ship : ShippingInfo) (e : Bool) (cart : Cart)
    (lines : List (CartItem × Product))
    (hc : findCartBySession st sid = some cart)
    (hemp : (itemsOfCart st cart.id).isEmpty = false)
    (hres : resolveCartLines st (itemsOfCart st cart.id) = some lines)
    (hcol : (st.orders.any fun o => o.order_number == n) = true) :
    create_order st n sid uid ship e = .error .integrityError := by
  unfold create_order
  rw [hc]
  simp [hemp, hres, hcol]

theorem create_buy_now_insufficient_spec (st : State) (n : String)
    (b : BuyNowCreate) (uid : Nat) (e : Bool) (product : Product)
    (hv : buyNowCreateValid b = true)
    (hp : findProduct st b.product_id = some product)
    (hs : product.stock < b.quantity) :
    create_buy_now_order st n b uid e = .error (.httpError 400 "Insufficient stock") := by
  unfold create_buy_now_order
  rw [hp]
  simp [hv, hs]

theorem create_buy_now_collision_spec (st : State) (n : String)
    (b : BuyNowCreate) (uid : Nat) (e : Bool) (product : Product)
    (hv : buyNowCreateValid b = true)
    (hp : findProduct st b.product_id = some product)
    (hstock : b.quantity ≤ product.stock)
    (hcol : (st.orders.any fun o => o.order_number == n) = true) :
    create_buy_now_order st n b uid e = .error .integrityError := by
  unfold create_buy_now_order
  rw [hp]
  simp [hv, hcol, not_lt.mpr hstock]

theorem get_order_setProductPrice (st : State) (pid : Nat) (x : Int)
    (n : String) : get_order (setProductPrice st pid x) n = get_order st n := rfl

theorem find?_order_append (old : List Order) (o : Order)
    (hfresh : (old.any fun x => x.order_number == o.order_number) = false) :
    ((old ++ [o]).find? fun x => x.order_number == o.order_number) = some o := by
  rw [List.find?_append, find?_eq_none_of_any_eq_false _ _ hfresh]
  simp [List.find?]

theorem old_items_not_new (st : State) (hwf : orderItemsBelowNext st = true) :
    ∀ i ∈ st.order_items, (i.order_id == st.next_order_id) = false := by
  intro i hi
  simp only [orderItemsBelowNext, List.all_eq_true, decide_eq_true_eq] at hwf
  simp [Nat.ne_of_lt (hwf i hi)]

theorem findProduct_map_adjust (ps : List Product) (pid : Nat)
    (g : Product → Product) (hg : ∀ p, (g p).id = p.id) :
    ((ps.map (fun p => if p.id == pid then g p else p)).find?
        (fun p => p.id == pid))
      = Option.map g (ps.find? (fun p => p.id == pid)) := by
  induction ps with
  | nil => rfl
  | cons p rest ih =>
    rw [List.map_cons]
    by_cases h : p.id = pid
    · rw [if_pos (by simpa using h)]
      rw [List.find?_cons_of_pos _ (by simp [hg, h]),
        List.find?_cons_of_pos _ (by simpa using h)]
      rfl
    · rw [if_neg (by simpa using h)]
      rw [List.find?_cons_of_neg _ (by simpa using h),
        List.find?_cons_of_neg _ (by simpa using h), ih]

theorem cartCheckoutCommit_items (st : State) (n : String) (cart : Cart)
    (uid : Nat) (ship : ShippingInfo) (lines : List (CartItem × Product))
    (hwf : orderItemsBelowNext st = true) :
    itemsOfOrder (cartCheckoutCommit st n cart uid ship lines).1
      (cartCheckoutCommit st n cart uid ship lines).2.order.id
      = mkOrderItems st.next_order_id st.next_order_item_id lines := by
  show (st.order_items
      ++ mkOrderItems st.next_order_id st.next_order_item_id lines).filter
      (fun i => i.order_id == st.next_order_id) = _
  exact filter_append_left_nil _ _ _ (old_items_not_new st hwf)
    (fun x hx => by
      simp [mkOrderItems_order_id st.next_order_id st.next_order_item_id lines x hx])

theorem buyNowCommit_items (st : State) (n : String) (b : BuyNowCreate)
    (uid : Nat) (product : Product)
    (hwf : orderItemsBelowNext st = true) :
    itemsOfOrder (buyNowCommit st n b uid product).1
      (buyNowCommit st n b uid product).2.order.id
      = [buyNowItem st b product] := by
  show (st.order_items ++ [buyNowItem st b product]).filter
      (fun i => i.order_id == st.next_order_id) = _
  exact filter_append_left_nil _ _ _ (old_items_not_new st hwf)
    (fun x hx => by
      rcases List.mem_singleton.mp hx with rfl
      simp [buyNowItem])

theorem buyNowCommit_findProduct (st : State) (n : String) (b : BuyNowCreate)
    (uid : Nat) (product : Product)
    (hp : findProduct st b.product_id = some product) :
    findProduct (buyNowCommit st n b uid product).1 b.product_id
      = some { product with stock := product.stock - b.quantity } := by
  have hid : product.id = b.product_id := by
    simpa using List.find?_some hp
  unfold findProduct at hp ⊢
  show ((st.products.map fun p =>
      if p.id == product.id then { p with stock := p.stock - b.quantity } else p).find?
      fun p => p.id == b.product_id) = _
  rw [← hid] at hp ⊢
  rw [findProduct_map_adjust st.products product.id
    (fun p => { p with stock := p.stock - b.quantity }) (fun p => rfl), hp]
  rfl

/-! Claim theorems. -/

/-- Claim C7: a cart checkout for a session whose cart is missing, or whose
cart holds zero lines, fails with the 400 "Cart is empty" error; the error
outcome models the aborted transaction, so no order is created and no
state is mutated. -/
theorem c7_empty_cart_checkout_fails (st : State) (n sid : String) (uid : Nat)
    (ship : ShippingInfo) (e : Bool) :
    (findCartBySession st sid = none →
      create_order st n sid uid ship e = .error (.httpError 400 "Cart is empty")) ∧
    (∀ cart, findCartBySession st sid = some cart → itemsOfCart st cart.id = [] →
      create_order st n sid uid ship e = .error (.httpError 400 "Cart is empty")) := by
  constructor
  · intro hc
    exact create_order_no_cart_spec st n sid uid ship e hc
  · intro cart hc hemp
    exact create_order_empty_cart_spec st n sid uid ship e cart hc hemp

/-- Witness for C7 on the concrete database `stEmpty` (no cart for the
session) and `stCol` (with `s-absent` unknown). -/
theorem c7_witness :
    findCartBySession stEmpty "s-absent" = none ∧
    create_order stEmpty "ORD-20250101-AAAA0001" "s-absent" 7 shipA true
      = .error (.httpError 400 "Cart is empty") :=
  ⟨rfl, (c7_empty_cart_checkout_fails stEmpty "ORD-20250101-AAAA0001"
    "s-absent" 7 shipA true).1 rfl⟩

/-- Claim C3: the cart-conversion path neither validates nor modifies any
product's stock: it succeeds whenever the cart is present, non-empty, its
lines resolve, and the order number is fresh — with no condition on any
stock value — and every successful conversion leaves the whole products
table (hence every stock field) exactly as it was. -/
theorem c3_cart_checkout_ignores_stock (st : State) (n sid : String)
    (uid : Nat) (ship : ShippingInfo) (e : Bool) :
    (∀ st' r, create_order st n sid uid ship e = .ok (st', r) →
      st'.products = st.products) ∧
    (∀ cart lines, findCartBySession st sid = some cart →
      (itemsOfCart st cart.id).isEmpty = false →
      resolveCartLines st (itemsOfCart st cart.id) = some lines →
      (st.orders.any fun o => o.order_number == n) = false →
      ∃ st' r, create_order st n sid uid ship e = .ok (st', r)) := by
  constructor
  · intro st' r h
    obtain ⟨cart, lines, _, _, _, _, hcommit⟩ := create_order_ok_inv h
    have h1 : st' = (cartCheckoutCommit st n cart uid ship lines).1 :=
      congrArg Prod.fst hcommit
    rw [h1]
    rfl
  · intro cart lines hc hemp hres hfresh
    exact ⟨_, _, create_order_spec st n sid uid ship e cart lines hc hemp hres hfresh⟩

/-- Witness for C3 on `st0`, whose cart wants 5 of `productA` although only
1 is in stock: the conversion succeeds anyway and the products table is
untouched. -/
theorem c3_witness :
    productA.stock < 5 ∧
    ∃ st' r, create_order st0 "ORD-20250101-AAAA0001" "s1" 7 shipA true
      = .ok (st', r) ∧ st'.products = st0.products := by
  have hok := create_order_spec st0 "ORD-20250101-AAAA0001" "s1" 7 shipA true
    ⟨1, "s1"⟩ [(⟨1, 1, 1, 5⟩, productA), (⟨2, 1, 2, 1⟩, productB)]
    rfl rfl rfl rfl
  exact ⟨by decide, _, _, hok,
    (c3_cart_checkout_ignores_stock st0 "ORD-20250101-AAAA0001" "s1" 7
      shipA true).1 _ _ hok⟩

/-- Claim C8: a successful cart checkout leaves the session's cart with
zero lines; the cart table itself is unchanged (the cart entity survives,
emptied), and the clearing is part of the same single committed
transition as the order insert. -/
theorem c8_cart_cleared_after_checkout (st : State) (n sid : String)
    (uid : Nat) (ship : ShippingInfo) (e : Bool) (st' : State)
    (r : OrderResponse)
    (h : create_order st n sid uid ship e = .ok (st', r)) :
    findCartBySession st' sid = findCartBySession st sid ∧
    ∀ cart, findCartBySession st sid = some cart →
      itemsOfCart st' cart.id = [] := by
  obtain ⟨cart, lines, hc, _, _, _, hcommit⟩ := create_order_ok_inv h
  have h1 : st' = (cartCheckoutCommit st n cart uid ship lines).1 :=
    congrArg Prod.fst hcommit
  rw [h1]
  constructor
  · rfl
  · intro cart' hc'
    rw [hc] at hc'
    injection hc' with hcc
    subst hcc
    have hrw : itemsOfCart (cartCheckoutCommit st n cart uid ship lines).1 cart.id
        = (st.cart_items.filter (fun i => !(i.cart_id == cart.id))).filter
            (fun i => i.cart_id == cart.id) := rfl
    rw [hrw, List.filter_eq_nil_iff]
    intro a ha
    have hmem := (List.mem_filter.mp ha).2
    simp at hmem ⊢
    exact hmem

/-- Witness for C8: checking out the concrete cart of `st0` empties it. -/
theorem c8_witness :
    ∃ st' r, create_order st0 "ORD-20250101-AAAA0001" "s1" 7 shipA true
      = .ok (st', r) ∧ itemsOfCart st' 1 = [] := by
  have hok := create_order_spec st0 "ORD-20250101-AAAA0001" "s1" 7 shipA true
    ⟨1, "s1"⟩ [(⟨1, 1, 1, 5⟩, productA), (⟨2, 1, 2, 1⟩, productB)]
    rfl rfl rfl rfl
  exact ⟨_, _, hok,
    (c8_cart_cleared_after_checkout st0 "ORD-20250101-AAAA0001" "s1" 7
      shipA true _ _ hok).2 ⟨1, "s1"⟩ rfl⟩

/-- Claim C2 counterexample: in `stCol` the ledger already holds order
number `ORD-20250101-DUP00001`, and session `s1` has a valid non-empty
cart; a checkout that draws exactly that number fails with the integrity
error — the collision is not retried with a fresh suffix, contradicting
the claim that a collision never fails the checkout. -/
theorem c2_counterexample :
    create_order stCol "ORD-20250101-DUP00001" "s1" 7 shipA true
      = .error ApiError.integrityError := by
  rfl

/-- Claim C2 (amended): the handler draws `generate_order_number()` exactly
once per request; when the drawn number already exists in the ledger, the
UNIQUE constraint on `orders.order_number` makes the commit fail and the
checkout — cart conversion or buy-now — fails with the integrity error.
There is no internal retry with a fresh suffix. -/
theorem c2_collision_fails_checkout :
    (∀ (st : State) (n sid : String) (uid : Nat) (ship : ShippingInfo)
      (e : Bool) (cart : Cart) (lines : List (CartItem × Product)),
      findCartBySession st sid = some cart →
      (itemsOfCart st cart.id).isEmpty = false →
      resolveCartLines st (itemsOfCart st cart.id) = some lines →
      (st.orders.any fun o => o.order_number == n) = true →
      create_order st n sid uid ship e = .error .integrityError) ∧
    (∀ (st : State) (n : String) (b : BuyNowCreate) (uid : Nat) (e : Bool)
      (product : Product),
      buyNowCreateValid b = true →
      findProduct st b.product_id = some product →
      b.quantity ≤ product.stock →
      (st.orders.any fun o => o.order_number == n) = true →
      create_buy_now_order st n b uid e = .error .integrityError) :=
  ⟨fun st n sid uid ship e cart lines hc hemp hres hcol =>
      create_order_collision_spec st n sid uid ship e cart lines hc hemp hres hcol,
    fun st n b uid e product hv hp hstock hcol =>
      create_buy_now_collision_spec st n b uid e product hv hp hstock hcol⟩

/-- Witness for the amended C2 on the concrete colliding ledger `stCol`. -/
theorem c2_witness :
    (stCol.orders.any fun o => o.order_number == "ORD-20250101-DUP00001") = true ∧
    create_order stCol "ORD-20250101-DUP00001" "s1" 7 shipA true
      = .error ApiError.integrityError := by
  refine ⟨by decide, ?_⟩
  exact c2_collision_fails_checkout.1 stCol "ORD-20250101-DUP00001" "s1" 7
    shipA true ⟨1, "s1"⟩ [(⟨1, 1, 1, 1⟩, productA)] rfl rfl rfl (by decide)

/-- Claim C4: buy-now on an existing product fails with the 400
"Insufficient stock" error when `product.stock < quantity` — the error
outcome models the aborted transaction, so no order, no order line and no
stock change are persisted; when `stock ≥ quantity` (and the drawn order
number is fresh) it succeeds in one committed transition that creates
exactly the single line `buyNowItem st b product` and sets the product's
stock to `stock - quantity`. -/
theorem c4_buy_now_stock_check (st : State) (n : String) (b : BuyNowCreate)
    (uid : Nat) (e : Bool) (product : Product)
    (hv : buyNowCreateValid b = true)
    (hp : findProduct st b.product_id = some product) :
    (product.stock < b.quantity →
      create_buy_now_order st n b uid e
        = .error (.httpError 400 "Insufficient stock")) ∧
    (b.quantity ≤ product.stock →
      (st.orders.any fun o => o.order_number == n) = false →
      ∃ st' r, create_buy_now_order st n b uid e = .ok (st', r) ∧
        r.items = [buyNowItem st b product] ∧
        findProduct st' b.product_id
          = some { product with stock := product.stock - b.quantity }) := by
  constructor
  · intro hs
    exact create_buy_now_insufficient_spec st n b uid e product hv hp hs
  · intro hs hfresh
    exact ⟨_, _, create_buy_now_order_spec st n b uid e product hv hp hs hfresh,
      rfl, buyNowCommit_findProduct st n b uid product hp⟩

/-- Witness for C4: `productB` has stock 3; requesting 5 fails with
"Insufficient stock", requesting 2 succeeds and leaves stock 1. -/
theorem c4_witness :
    buyNowCreateValid buyFive = true ∧
    findProduct st0 buyFive.product_id = some productB ∧
    productB.stock < buyFive.quantity ∧
    create_buy_now_order st0 "ORD-20250101-AAAA0001" buyFive 7 true
      = .error (ApiError.httpError 400 "Insufficient stock") ∧
    (∃ st' r, create_buy_now_order st0 "ORD-20250101-AAAA0001" buyTwo 7 true
      = .ok (st', r) ∧
      findProduct st' buyTwo.product_id
        = some { productB with stock := productB.stock - buyTwo.quantity }) := by
  refine ⟨by decide, rfl, by decide, ?_, ?_⟩
  · exact (c4_buy_now_stock_check st0 "ORD-20250101-AAAA0001" buyFive 7 true
      productB (by decide) rfl).1 (by decide)
  · obtain ⟨st', r, hok, _, hfind⟩ :=
      (c4_buy_now_stock_check st0 "ORD-20250101-AAAA0001" buyTwo 7 true
        productB (by decide) rfl).2 (by decide) rfl
    exact ⟨st', r, hok, hfind⟩

/-- Claim C10: `BuyNowCreate` puts no lower bound on `quantity`, so the
entry point accepts any integer; for an existing product with
non-negative stock and any `quantity ≤ 0`, the check `stock < quantity`
passes, the checkout succeeds, the single created line carries the
non-positive quantity, and the stock becomes `stock - quantity` — never
less than before, and strictly more when the quantity is negative. -/
theorem c10_buy_now_nonpositive_quantity (st : State) (n : String)
    (b : BuyNowCreate) (uid : Nat) (e : Bool) (product : Product)
    (hv : buyNowCreateValid b = true)
    (hq : b.quantity ≤ 0)
    (hp : findProduct st b.product_id = some product)
    (hs0 : 0 ≤ product.stock)
    (hfresh : (st.orders.any fun o => o.order_number == n) = false) :
    ∃ st' r, create_buy_now_order st n b uid e = .ok (st', r) ∧
      r.items.map OrderItem.quantity = [b.quantity] ∧
      findProduct st' b.product_id
        = some { product with stock := product.stock - b.quantity } ∧
      product.stock ≤ product.stock - b.quantity ∧
      (b.quantity < 0 → product.stock < product.stock - b.quantity) :=
  ⟨_, _, create_buy_now_order_spec st n b uid e product hv hp
      (le_trans hq hs0) hfresh, rfl,
    buyNowCommit_findProduct st n b uid product hp,
    by omega, fun hneg => by omega⟩

/-- Witness for C10: buying -3 of `productB` (stock 3) succeeds and raises
the stock to 6. -/
theorem c10_witness :
    buyNeg.quantity ≤ 0 ∧
    ∃ st' r, create_buy_now_order st0 "ORD-20250101-AAAA0001" buyNeg 7 true
      = .ok (st', r) ∧
      findProduct st' buyNeg.product_id
        = some { productB with stock := productB.stock - buyNeg.quantity } := by
  refine ⟨by decide, ?_⟩
  obtain ⟨st', r, hok, _, hfind, _, _⟩ :=
    c10_buy_now_nonpositive_quantity st0 "ORD-20250101-AAAA0001" buyNeg 7 true
      productB (by decide) (by decide) rfl (by decide) rfl
  exact ⟨st', r, hok, hfind⟩

/-- Claim C9: the outcome of the confirmation-notification dispatch never
changes a checkout's result — the returned value (state and response
alike) is literally the same for a failed and a successful dispatch, and
every successfully returned order has status "confirmed". -/
theorem c9_notification_failure_immaterial (st : State) (n sid : String)
    (uid : Nat) (ship : ShippingInfo) (b : BuyNowCreate) :
    (∀ e₁ e₂ : Bool,
      create_order st n sid uid ship e₁ = create_order st n sid uid ship e₂) ∧
    (∀ e₁ e₂ : Bool,
      create_buy_now_order st n b uid e₁ = create_buy_now_order st n b uid e₂) ∧
    (∀ (e : Bool) st' r, create_order st n sid uid ship e = .ok (st', r) →
      r.order.status = "confirmed") ∧
    (∀ (e : Bool) st' r, create_buy_now_order st n b uid e = .ok (st', r) →
      r.order.status = "confirmed") := by
  refine ⟨fun _ _ => rfl, fun _ _ => rfl, ?_, ?_⟩
  · intro e st' r h
    obtain ⟨cart, lines, _, _, _, _, hcommit⟩ := create_order_ok_inv h
    have h2 : r = (cartCheckoutCommit st n cart uid ship lines).2 :=
      congrArg Prod.snd hcommit
    rw [h2]
    rfl
  · intro e st' r h
    obtain ⟨_, product, _, _, _, hcommit⟩ := create_buy_now_order_ok_inv h
    have h2 : r = (buyNowCommit st n b uid product).2 :=
      congrArg Prod.snd hcommit
    rw [h2]
    rfl

/-- Witness for C9 on `st0`: the checkout with failed dispatch equals the
one with successful dispatch and still returns a confirmed order. -/
theorem c9_witness :
    create_order st0 "ORD-20250101-AAAA0001" "s1" 7 shipA false
      = create_order st0 "ORD-20250101-AAAA0001" "s1" 7 shipA true ∧
    ∃ st' r, create_order st0 "ORD-20250101-AAAA0001" "s1" 7 shipA false
      = .ok (st', r) ∧ r.order.status = "confirmed" := by
  refine ⟨(c9_notification_failure_immaterial st0 "ORD-20250101-AAAA0001"
    "s1" 7 shipA buyFive).1 false true, ?_⟩
  have hok := create_order_spec st0 "ORD-20250101-AAAA0001" "s1" 7 shipA false
    ⟨1, "s1"⟩ [(⟨1, 1, 1, 5⟩, productA), (⟨2, 1, 2, 1⟩, productB)]
    rfl rfl rfl rfl
  exact ⟨_, _, hok, (c9_notification_failure_immaterial st0
    "ORD-20250101-AAAA0001" "s1" 7 shipA buyFive).2.2.1 false _ _ hok⟩

/-- Claim C1: for every successful checkout — cart conversion or buy-now —
the persisted order's `total_amount` equals the sum of
`quantity * price_at_purchase` over the order lines persisted for it
(exactly, in integer cents, hence within any rounding tolerance).  The
`orderItemsBelowNext` hypothesis is the autoincrement-key bookkeeping every
real database satisfies. -/
theorem c1_total_amount_eq_sum (st : State) (n sid : String) (uid : Nat)
    (ship : ShippingInfo) (b : BuyNowCreate) (e : Bool)
    (hwf : orderItemsBelowNext st = true) :
    (∀ st' r, create_order st n sid uid ship e = .ok (st', r) →
      r.order.total_amount
        = ((itemsOfOrder st' r.order.id).map
            (fun x => x.quantity * x.price_at_purchase)).sum) ∧
    (∀ st' r, create_buy_now_order st n b uid e = .ok (st', r) →
      r.order.total_amount
        = ((itemsOfOrder st' r.order.id).map
            (fun x => x.quantity * x.price_at_purchase)).sum) := by
  constructor
  · intro st' r h
    obtain ⟨cart, lines, _, _, _, _, hcommit⟩ := create_order_ok_inv h
    have h1 : st' = (cartCheckoutCommit st n cart uid ship lines).1 :=
      congrArg Prod.fst hcommit
    have h2 : r = (cartCheckoutCommit st n cart uid ship lines).2 :=
      congrArg Prod.snd hcommit
    subst h1
    subst h2
    rw [cartCheckoutCommit_items st n cart uid ship lines hwf, mkOrderItems_sum]
    rfl
  · intro st' r h
    obtain ⟨_, product, _, _, _, hcommit⟩ := create_buy_now_order_ok_inv h
    have h1 : st' = (buyNowCommit st n b uid product).1 :=
      congrArg Prod.fst hcommit
    have h2 : r = (buyNowCommit st n b uid product).2 :=
      congrArg Prod.snd hcommit
    subst h1
    subst h2
    rw [buyNowCommit_items st n b uid product hwf]
    simp [buyNowCommit, buyNowOrder, buyNowItem, mul_comm]

/-- Witness for C1 on the concrete cart checkout of `st0`. -/
theorem c1_witness :
    orderItemsBelowNext st0 = true ∧
    ∃ st' r, create_order st0 "ORD-20250101-AAAA0001" "s1" 7 shipA true
      = .ok (st', r) ∧
      r.order.total_amount
        = ((itemsOfOrder st' r.order.id).map
            (fun x => x.quantity * x.price_at_purchase)).sum := by
  refine ⟨rfl, ?_⟩
  have hok := create_order_spec st0 "ORD-20250101-AAAA0001" "s1" 7 shipA true
    ⟨1, "s1"⟩ [(⟨1, 1, 1, 5⟩, productA), (⟨2, 1, 2, 1⟩, productB)]
    rfl rfl rfl rfl
  exact ⟨_, _, hok, (c1_total_amount_eq_sum st0 "ORD-20250101-AAAA0001" "s1"
    7 shipA buyFive true rfl).1 _ _ hok⟩

/-- Claim C6: `price_at_purchase` is a frozen snapshot — after a successful
cart checkout, changing any product's catalog price to any new value and
reloading the order by its number returns exactly the response of
creation, and every reloaded line's `price_at_purchase` equals the catalog
price the product had in the pre-checkout state. -/
theorem c6_price_at_purchase_frozen (st : State) (n sid : String) (uid : Nat)
    (ship : ShippingInfo) (e : Bool) (st₁ : State) (r : OrderResponse)
    (pid : Nat) (p2 : Int)
    (hwf : orderItemsBelowNext st = true)
    (h : create_order st n sid uid ship e = .ok (st₁, r)) :
    get_order (setProductPrice st₁ pid p2) r.order.order_number = .ok r ∧
    ∀ l ∈ r.items, ∃ p, findProduct st l.product_id = some p ∧
      l.price_at_purchase = p.price := by
  obtain ⟨cart, lines, hc, hemp, hres, hfresh, hcommit⟩ := create_order_ok_inv h
  have h1 : st₁ = (cartCheckoutCommit st n cart uid ship lines).1 :=
    congrArg Prod.fst hcommit
  have h2 : r = (cartCheckoutCommit st n cart uid ship lines).2 :=
    congrArg Prod.snd hcommit
  subst h1
  subst h2
  constructor
  · rw [get_order_setProductPrice]
    unfold get_order
    have hfind : ((cartCheckoutCommit st n cart uid ship lines).1.orders.find?
        fun o => o.order_number
          == (cartCheckoutCommit st n cart uid ship lines).2.order.order_number)
        = some (cartOrder st n uid ship lines) := by
      show ((st.orders ++ [cartOrder st n uid ship lines]).find?
        fun o => o.order_number == n) = _
      exact find?_order_append st.orders (cartOrder st n uid ship lines)
        (by simpa using hfresh)
    rw [hfind]
    have hitems : itemsOfOrder (cartCheckoutCommit st n cart uid ship lines).1
        (cartOrder st n uid ship lines).id
        = mkOrderItems st.next_order_id st.next_order_item_id lines :=
      cartCheckoutCommit_items st n cart uid ship lines hwf
    simp only [hitems]
    rfl
  · intro l hl
    obtain ⟨pr, hpr, hprod, _, hprice⟩ :=
      mkOrderItems_src st.next_order_id st.next_order_item_id lines l hl
    refine ⟨pr.2, ?_, hprice⟩
    rw [hprod]
    exact resolveCartLines_mem st (itemsOfCart st cart.id) lines hres pr hpr

/-- Witness for C6: create the `st0` order, change `productA`'s price to
99.99, reload by order number: the response is unchanged and each line
carries the pre-change catalog price. -/
theorem c6_witness :
    orderItemsBelowNext st0 = true ∧
    ∃ st₁ r, create_order st0 "ORD-20250101-AAAA0001" "s1" 7 shipA true
      = .ok (st₁, r) ∧
      get_order (setProductPrice st₁ 1 9999) r.order.order_number = .ok r ∧
      ∀ l ∈ r.items, ∃ p, findProduct st0 l.product_id = some p ∧
        l.price_at_purchase = p.price := by
  refine ⟨rfl, ?_⟩
  have hok := create_order_spec st0 "ORD-20250101-AAAA0001" "s1" 7 shipA true
    ⟨1, "s1"⟩ [(⟨1, 1, 1, 5⟩, productA), (⟨2, 1, 2, 1⟩, productB)]
    rfl rfl rfl rfl
  obtain ⟨hget, hfrozen⟩ := c6_price_at_purchase_frozen st0
    "ORD-20250101-AAAA0001" "s1" 7 shipA true _ _ 1 9999 rfl hok
  exact ⟨_, _, hok, hget, hfrozen⟩

/-- Claim C5 counterexample: in `stD` the cart for session `s1` holds
exactly the line with id 1; calling the update endpoint with quantity 0
does not delete the line — the request is rejected by the
`CartItemUpdate` validation (`ge=1`) before the handler runs, so the
claimed deletion result is not produced. -/
theorem c5_counterexample :
    update_cart_item stD "s1" 1 0 = .error ApiError.validationError ∧
    update_cart_item stD "s1" 1 0 ≠ .ok { stD with cart_items := [] } := by
  have heq : update_cart_item stD "s1" 1 0 = .error ApiError.validationError := rfl
  refine ⟨heq, ?_⟩
  rw [heq]
  exact fun hcon => Except.noConfusion hcon

/-- Claim C5 (amended): a request with `quantity ≤ 0` is rejected with a
validation error by the `CartItemUpdate` schema (`ge=1`) and the line is
not deleted — the handler's delete branch exists but is unreachable
through the endpoint (last conjunct); with `quantity ≥ 1` the endpoint
overwrites the line's quantity; a line id that does not belong to the
session's cart fails with the 404 "Cart item not found". -/
theorem c5_set_line_quantity (st : State) (sid : String) (item_id : Nat)
    (q : Int) :
    (q ≤ 0 → update_cart_item st sid item_id q = .error .validationError) ∧
    (1 ≤ q → ∀ cart, findCartBySession st sid = some cart →
      ∀ it, st.cart_items.find?
        (fun i => i.id == item_id && i.cart_id == cart.id) = some it →
      update_cart_item st sid item_id q = .ok
        { st with cart_items := st.cart_items.map (fun i =>
            if i.id == item_id then { i with quantity := q } else i) }) ∧
    (1 ≤ q → ∀ cart, findCartBySession st sid = some cart →
      st.cart_items.find?
        (fun i => i.id == item_id && i.cart_id == cart.id) = none →
      update_cart_item st sid item_id q
        = .error (.httpError 404 "Cart item not found")) ∧
    (1 ≤ q → findCartBySession st sid = none →
      update_cart_item st sid item_id q
        = .error (.httpError 404 "Cart not found")) ∧
    (q ≤ 0 → ∀ cart, findCartBySession st sid = some cart →
      ∀ it, st.cart_items.find?
        (fun i => i.id == item_id && i.cart_id == cart.id) = some it →
      update_cart_item_handler st sid item_id q = .ok
        { st with cart_items :=
            st.cart_items.filter (fun i => !(i.id == item_id)) }) := by
  refine ⟨?_, ?_, ?_, ?_, ?_⟩
  · intro hq
    have hv : cartItemUpdateValid q = false := by
      simp only [cartItemUpdateValid, decide_eq_false_iff_not]
      omega
    unfold update_cart_item
    simp [hv]
  · intro hq cart hc it hit
    have hv : cartItemUpdateValid q = true := by
      simp only [cartItemUpdateValid, decide_eq_true_eq]
      omega
    unfold update_cart_item update_cart_item_handler
    rw [hc]
    simp [hv, hit]
    intro h0
    exact absurd h0 (by omega)
  · intro hq cart hc hnone
    have hv : cartItemUpdateValid q = true := by
      simp only [cartItemUpdateValid, decide_eq_true_eq]
      omega
    unfold update_cart_item update_cart_item_handler
    rw [hc]
    simp [hv, hnone]
  · intro hq hc
    have hv : cartItemUpdateValid q = true := by
      simp only [cartItemUpdateValid, decide_eq_true_eq]
      omega
    unfold update_cart_item update_cart_item_handler
    rw [hc]
    simp [hv]
  · intro hq cart hc it hit
    unfold update_cart_item_handler
    rw [hc]
    simp [hit, hq]

/-- Witness for the amended C5 on `stD`: quantity 4 overwrites the line,
an unknown item id 99 is a 404, and quantity 0 is a validation error. -/
theorem c5_witness :
    update_cart_item stD "s1" 1 4 = .ok
      { stD with cart_items :=
          [{ id := 1, cart_id := 1, product_id := 1, quantity := 4 }] } ∧
    update_cart_item stD "s1" 99 4
      = .error (ApiError.httpError 404 "Cart item not found") ∧
    update_cart_item stD "s1" 1 0 = .error ApiError.validationError := by
  refine ⟨?_, ?_, ?_⟩
  · exact (c5_set_line_quantity stD "s1" 1 4).2.1 (by norm_num) ⟨1, "s1"⟩ rfl
      ⟨1, 1, 1, 2⟩ rfl
  · exact (c5_set_line_quantity stD "s1" 99 4).2.2.1 (by norm_num) ⟨1, "s1"⟩
      rfl rfl
  · exact (c5_set_line_quantity stD "s1" 1 0).1 (by norm_num)

end Vamazon
